import Mathlib

/-
Shallow embedding of the jcmb/GNSS-Download repository:
  - KMZ_Decode.py        (parse_table, parse_kmz)
  - TrimbleDownload.py   (get_args RINEX validation, GNSSFormat,
                          filepathFrom_content_disposition, download_file,
                          get_files_from_directory)
Library calls (BeautifulSoup, urljoin, requests, zipfile, ElementTree, float)
are abstracted at their interface: HTML tables arrive as lists of cell-text
rows, urljoin is a function parameter, HTTP responses are function parameters,
zip archives are an inductive input, and Python float arithmetic is modelled
exactly over the rationals.
-/

namespace GNSSDownload

/-! ### String primitives

Computable models of the Python/Lean string operations the sources use,
written over character lists so that concrete instances reduce in the
kernel. -/

/-- Model of String.endsWith / Python str.endswith. -/
def strEndsWith (s suf : String) : Bool := suf.data.isSuffixOf s.data

/-- Model of Python s[:-n] / String.dropRight. -/
def strDropRight (s : String) (n : Nat) : String :=
  String.mk (s.data.take (s.data.length - n))

/-- Model of Python str.strip() / String.trim. -/
def strTrim (s : String) : String :=
  String.mk (((s.data.dropWhile Char.isWhitespace).reverse.dropWhile
    Char.isWhitespace).reverse)

/-- Split at each non-overlapping occurrence of `sep`, accumulating the
current segment in `acc`; structural in the fuel (callers pass the input
length, which dominates the number of steps). -/
def splitOnAux (sep : List Char) : Nat → List Char → List Char → List (List Char)
  | _, [], acc => [acc.reverse]
  | 0, l, acc => [acc.reverse ++ l]
  | f + 1, c :: rest, acc =>
    if sep.isPrefixOf (c :: rest) then
      acc.reverse :: splitOnAux sep f ((c :: rest).drop sep.length) []
    else
      splitOnAux sep f rest (c :: acc)

/-- Model of String.splitOn / Python str.split for a non-empty separator. -/
def strSplitOn (s sep : String) : List String :=
  (splitOnAux sep.data s.data.length s.data []).map String.mk

/-- Python-dict model: association list in insertion order, lookup by key. -/
def dictGet? {α : Type} (d : List (String × α)) (k : String) : Option α :=
  match d with
  | [] => none
  | (k', v) :: rest => if k' = k then some v else dictGet? rest k

/-- Python `k in d`. -/
def dictMem {α : Type} (d : List (String × α)) (k : String) : Bool :=
  match d with
  | [] => false
  | (k', _) :: rest => k' = k || dictMem rest k

/-- Python `d[k] = v`: replace in place if the key is present, else append
(CPython dicts preserve insertion order). -/
def dictSet {α : Type} (d : List (String × α)) (k : String) (v : α) :
    List (String × α) :=
  match d with
  | [] => [(k, v)]
  | (k', v') :: rest => if k' = k then (k, v) :: rest else (k', v') :: dictSet rest k v

/-! ## KMZ_Decode.parse_table -/

/-- The allow-list of row labels from KMZ_Decode.py lines 74-90. -/
def allowedKeys : List String :=
  ["UTC", "Time", "Week", "Type", "Mode", "PDOP", "Corr Age", "Used",
   "Track", "East", "North", "Hgt", "Velocity", "Track Angle"]

/-- Label remapping, KMZ_Decode.py lines 91-96. -/
def remapKey (key : String) : String :=
  if key = "Track" then "Tracked"
  else if key = "East" then "East Sigma"
  else if key = "North" then "North Sigma"
  else key

/-- One iteration of the row loop, KMZ_Decode.py lines 60-100: rows with
exactly two cells contribute their (trimmed) label/value; a label already
present is stored under "Up Sigma" instead. -/
def processRow (data : List (String × String)) (cells : List String) :
    List (String × String) :=
  match cells with
  | [c0, c1] =>
    let key := strTrim c0
    let value := strTrim c1
    if key ∈ allowedKeys then
      let key := remapKey key
      if !(dictMem data key) then dictSet data key value
      else dictSet data "Up Sigma" value
    else data
  | _ => data

/-- The accumulated table after the row loop. -/
def buildData (rows : List (List String)) : List (String × String) :=
  rows.foldl processRow []

/-- One unit-suffix strip, e.g. KMZ_Decode.py lines 102-104:
`if k in data and data[k].endswith(suf): data[k] = data[k][:-n]`. -/
def stripSuffixAt (data : List (String × String)) (k suf : String) (n : Nat) :
    List (String × String) :=
  match dictGet? data k with
  | some v => if strEndsWith v suf then dictSet data k (strDropRight v n) else data
  | none => data

/-- KMZ_Decode.py lines 106-108: when "Corr Age" ends with "s", its value is
replaced by `data["East Sigma"][:-1]` — indexing "East Sigma" directly, which
raises KeyError when that key is absent. -/
def corrAgeStep (data : List (String × String)) :
    Except String (List (String × String)) :=
  match dictGet? data "Corr Age" with
  | some v =>
    if strEndsWith v "s" then
      match dictGet? data "East Sigma" with
      | some e => .ok (dictSet data "Corr Age" (strDropRight e 1))
      | none => .error "KeyError: East Sigma"
    else .ok data
  | none => .ok data

/-- The suffix-strip pipeline after the row loop, KMZ_Decode.py lines 102-133,
in source order. -/
def stripPipeline (data : List (String × String)) :
    Except String (List (String × String)) :=
  let data := stripSuffixAt data "Hgt" "m" 1
  match corrAgeStep data with
  | .error e => .error e
  | .ok data =>
    let data := stripSuffixAt data "East Sigma" "m" 1
    let data := stripSuffixAt data "North Sigma" "m" 1
    let data := stripSuffixAt data "Up Sigma" "m" 1
    let data := stripSuffixAt data "Track Angle" "°" 1
    let data := stripSuffixAt data "Velocity" "km/h" 4
    let data := stripSuffixAt data "Time" " secs" 5
    .ok data

/-- KMZ_Decode.parse_table: the HTML parsing by BeautifulSoup is abstracted —
the input is the list of table rows, each row the list of its cell texts.
`.error` models an exception (the KeyError of line 108) escaping the
function. -/
def parse_table (rows : List (List String)) :
    Except String (List (String × String)) :=
  stripPipeline (buildData rows)

/-- A row that contributes to the accumulated table: exactly two cells and an
allow-listed (trimmed) label. -/
def isContributing (cells : List String) : Bool :=
  match cells with
  | [c0, _] => decide (strTrim c0 ∈ allowedKeys)
  | _ => false

/-- A two-cell row whose (trimmed) label is "East". -/
def isEastRow (cells : List String) : Bool :=
  match cells with
  | [c0, _] => decide (strTrim c0 = "East")
  | _ => false

/-! ## KMZ_Decode.parse_kmz -/

/-- A value stored in a placemark's row dict: parse_table produces strings,
the coordinate merge (KMZ_Decode.py line 227) stores a Python float,
modelled exactly as a rational. -/
inductive Val
  | str (s : String)
  | num (q : ℚ)
deriving DecidableEq

/-- A placemark as seen after the ElementTree queries of KMZ_Decode.py lines
205-222: the description's embedded HTML table (as rows of cell texts) when a
kml:description child exists, and the raw coordinates text when a kml:Point
with a kml:coordinates child exists. -/
structure Placemark where
  description : Option (List (List String))
  point : Option String
deriving DecidableEq

/-- Input to parse_kmz after the zipfile library: either not a valid zip
container, or a list of entries (name, parsed KML placemark list).  XML
parsing by ElementTree is abstracted: an entry carries its placemarks. -/
inductive ZipInput
  | badZip
  | zip (entries : List (String × List Placemark))

/-- A Python exception as raised inside the try block of parse_kmz. -/
inductive PyError
  | badZipFile
  | exception (msg : String)
deriving DecidableEq

/-- Value of a base-10 digit list. -/
def digitsToNat (cs : List Char) : Nat :=
  cs.foldl (fun n c => n * 10 + (c.toNat - 48)) 0

/-- Model of the Python builtin `float` on plain decimal literals
(optional sign, integer part, optional fraction), exact over ℚ;
`none` models the ValueError on unparsable input.  Exponent and
inf/nan spellings do not occur in KML coordinate strings and are
not modelled. -/
def parseDecimal? (s : String) : Option ℚ :=
  let t := strTrim s
  let signed : ℚ × List Char :=
    match t.data with
    | '-' :: rest => (-1, rest)
    | '+' :: rest => (1, rest)
    | cs => (1, cs)
  let sign := signed.1
  let cs := signed.2
  let intPart := cs.takeWhile Char.isDigit
  let rest := cs.dropWhile Char.isDigit
  match rest with
  | [] =>
    if intPart.isEmpty then none
    else some (sign * (digitsToNat intPart : ℚ))
  | '.' :: frac =>
    if frac.all Char.isDigit && (!intPart.isEmpty || !frac.isEmpty) then
      some (sign * ((digitsToNat intPart : ℚ) +
        (digitsToNat frac : ℚ) / (10 ^ frac.length)))
    else none
  | _ => none

/-- Lift the string table returned by parse_table into the row dict. -/
def vDict (d : List (String × String)) : List (String × Val) :=
  d.map (fun p => (p.1, Val.str p.2))

/-- KMZ_Decode.py lines 216-227: when the placemark has a Point with a
coordinates text that splits on "," into exactly three components, set
Lat and Lon from components 0 and 1 and Hgt to `float(c2) - ARP_Offset`.
A failing float conversion raises (modelled as `.error`). -/
def applyCoordinates (arp : ℚ) (details : List (String × Val))
    (pt : Option String) : Except String (List (String × Val)) :=
  match pt with
  | none => .ok details
  | some ctext =>
    match strSplitOn (strTrim ctext) "," with
    | [c0, c1, c2] =>
      match parseDecimal? c2 with
      | some q =>
        .ok (dictSet (dictSet (dictSet details "Lat" (Val.str c0))
              "Lon" (Val.str c1)) "Hgt" (Val.num (q - arp)))
      | none => .error "ValueError: could not convert string to float"
    | _ => .ok details

/-- The placemark loop of KMZ_Decode.py lines 205-230: placemarks without a
description are skipped; each surviving placemark yields one CSV row (its
dict); an exception raised mid-loop aborts the remaining placemarks while
keeping the rows already written. -/
def processPlacemarks (arp : ℚ) : List Placemark →
    List (List (String × Val)) × Option String
  | [] => ([], none)
  | pm :: rest =>
    match pm.description with
    | none => processPlacemarks arp rest
    | some rows =>
      match parse_table rows with
      | .error e => ([], some e)
      | .ok details =>
        match applyCoordinates arp (vDict details) pm.point with
        | .error e => ([], some e)
        | .ok row =>
          let tail := processPlacemarks arp rest
          (row :: tail.1, tail.2)

/-- The body of parse_kmz's try block (KMZ_Decode.py lines 148-230): rows
written so far plus the exception (if any) reaching the except clauses.
Opening a non-zip raises BadZipFile; a zip without a ".kml" entry raises
`Exception("No KML file found in the KMZ.")`; otherwise the first ".kml"
entry's placemarks are processed. -/
def parse_kmz_body (z : ZipInput) (arp : ℚ) :
    List (List (String × Val)) × Option PyError :=
  match z with
  | .badZip => ([], some .badZipFile)
  | .zip entries =>
    match entries.find? (fun e => strEndsWith e.1 ".kml") with
    | none => ([], some (.exception "No KML file found in the KMZ."))
    | some (_, placemarks) =>
      let r := processPlacemarks arp placemarks
      (r.1, r.2.map .exception)

/-- The rows emitted to the CSV and the diagnostic printed to stdout. -/
structure KMZOutcome where
  rows : List (List (String × Val))
  printed : Option String
deriving DecidableEq

/-- KMZ_Decode.parse_kmz (lines 136-235).  The outer `Except PyError` is the
exception channel observable by the caller: every arm is `.ok` because the
two except clauses (lines 232-235) catch BadZipFile and Exception and only
print — parse_kmz always returns normally (None in Python). -/
def parse_kmz (z : ZipInput) (arp : ℚ) : Except PyError KMZOutcome :=
  match parse_kmz_body z arp with
  | (rows, none) => .ok ⟨rows, none⟩
  | (rows, some .badZipFile) => .ok ⟨rows, some "The file is not a valid KMZ."⟩
  | (rows, some (.exception m)) => .ok ⟨rows, some ("Error: " ++ m)⟩

/-! ## TrimbleDownload -/

/-- TrimbleDownload.py lines 121-129: the GNSSFormat enumeration. -/
inductive GNSSFormat
  | HATANAKA
  | HATANAKAZ
  | KML
  | KMP
  | CSV
  | RINEX
  | RINEXZ
  | T0X
deriving DecidableEq

/-- TrimbleDownload.py line 30: the allowed RINEX versions. -/
def allowed_versions : List String :=
  ["2.11", "2.12", "3.00", "3.02", "3.03", "3.04"]

/-- Models argparse handling of `--RINEX` (TrimbleDownload.py lines 33-41):
an absent option takes the default "3.04"; a supplied value outside the
`choices` list makes argparse exit with an error before anything else runs.
The exact argparse message text is not modelled. -/
def cliRinex : Option String → Except String String
  | none => .ok "3.04"
  | some v =>
    if v ∈ allowed_versions then .ok v
    else .error ("invalid choice for --RINEX: " ++ v)

/-- Python `pat in s` on strings. -/
def strContains (s pat : String) : Bool :=
  s.data.tails.any (fun t => pat.data.isPrefixOf t)

/-- TrimbleDownload.get_files_from_directory (lines 334-376).  The HTTP fetch
and BeautifulSoup link extraction are abstracted as `pages`, mapping a
directory URL to the href texts of its listing; `join` models
urllib.parse.urljoin.  Python's recursion is unbounded; `fuel` bounds the
model (fuel 0 yields []), and no recursive call occurs when `recursive` is
false. -/
def get_files_from_directory (join : String → String → String)
    (pages : String → List String) :
    Nat → String → Bool → List String
  | 0, _, _ => []
  | fuel + 1, directory_url, recursive =>
    (pages directory_url).flatMap (fun file_name =>
      if strEndsWith file_name ".T02" || strEndsWith file_name ".T04" then
        [join directory_url file_name]
      else if strContains file_name ".T02?" || strContains file_name ".T04?" then
        []
      else if file_name.length ≤ directory_url.length then
        []
      else if recursive then
        get_files_from_directory join pages fuel file_name recursive
      else
        [])

/-- Python `s.strip(chars)`: remove any of `cs` from both ends. -/
def stripChars (cs : List Char) (s : String) : String :=
  String.mk (((s.data.dropWhile cs.contains).reverse.dropWhile cs.contains).reverse)

/-- TrimbleDownload.py line 172-176: the filename extracted from a
Content-Disposition header value, `cd.split("filename=")[-1].strip(' "')`. -/
def cdFilename (content_disposition : String) : String :=
  stripChars [' ', '"'] ((strSplitOn content_disposition "filename=").getLastD "")

/-- TrimbleDownload.filepathFrom_content_disposition (lines 149-193).
`cdHeader` models the HEAD probe: the Content-Disposition header of the
response for a URL, `none` when the header is absent (transport failures,
which raise SystemExit, are outside this model).  With NoRename the probe is
skipped and the default is returned; os.sep is "/". -/
def filepathFrom_content_disposition (cdHeader : String → Option String)
    (download_url download_dir default_filepath : String) (NoRename : Bool) :
    String :=
  if NoRename then default_filepath
  else
    match cdHeader download_url with
    | some cd => download_dir ++ "/" ++ cdFilename cd
    | none => default_filepath

/-- The query-string selection of download_file (TrimbleDownload.py lines
211-279): the suffix appended to `server + url` for each format.  For RINEXZ
the mixed variant is chosen exactly for versions 3.03 and 3.04 (lines
220-224); T0X appends nothing. -/
def buildDownloadUrl (outputFormat : GNSSFormat) (RINEX download_url : String) :
    String :=
  match outputFormat with
  | .RINEX => download_url ++ "?format=RNX&Ver=" ++ RINEX
  | .RINEXZ =>
    if RINEX ∈ (["3.03", "3.04"] : List String) then
      download_url ++ "?format=Zipped-RNX-MIX&Ver=" ++ RINEX
    else
      download_url ++ "?format=Zipped-RNX&Ver=" ++ RINEX
  | .HATANAKA => download_url ++ "?format=RNX-COMP&Ver=" ++ RINEX
  | .HATANAKAZ => download_url ++ "?format=Zipped-RNX-COMP&Ver=" ++ RINEX
  | .KML => download_url ++ "?format=KMZ-Lines"
  | .KMP => download_url ++ "?format=KMZ-LinesPoints"
  | .CSV => download_url ++ "?format=KMZ-LinesPoints"
  | .T0X => download_url

/-- The name-resolution prefix of download_file (TrimbleDownload.py lines
196-282): the (download_url, filepath) pair after the per-format branch.
The default filename replaces the last 3 characters of the URL tail with a
format suffix; the KML, KMP and CSV branches pass the literal `NoRename=True`
to filepathFrom_content_disposition, every RINEX-family branch passes the
caller's NoRename, and T0X leaves both untouched. -/
def download_file_resolve (cdHeader : String → Option String)
    (server url download_dir : String) (outputFormat : GNSSFormat)
    (RINEX : String) (NoRename : Bool) : String × String :=
  let filepath := download_dir ++ "/" ++ (strSplitOn url "/").getLastD ""
  let download_url := buildDownloadUrl outputFormat RINEX (server ++ url)
  match outputFormat with
  | .RINEX =>
    (download_url, filepathFrom_content_disposition cdHeader download_url
      download_dir (strDropRight filepath 3 ++ "RNX." ++ RINEX ++ ".obs") NoRename)
  | .RINEXZ =>
    (download_url, filepathFrom_content_disposition cdHeader download_url
      download_dir (strDropRight filepath 3 ++ "RNX." ++ RINEX ++ ".zip") NoRename)
  | .HATANAKA =>
    (download_url, filepathFrom_content_disposition cdHeader download_url
      download_dir (strDropRight filepath 3 ++ "HATANAKA." ++ RINEX ++ ".obs") NoRename)
  | .HATANAKAZ =>
    (download_url, filepathFrom_content_disposition cdHeader download_url
      download_dir (strDropRight filepath 3 ++ "HATANAKA." ++ RINEX ++ ".zip") NoRename)
  | .KML =>
    (download_url, filepathFrom_content_disposition cdHeader download_url
      download_dir (strDropRight filepath 3 ++ "lines.kmz") true)
  | .KMP =>
    (download_url, filepathFrom_content_disposition cdHeader download_url
      download_dir (strDropRight filepath 3 ++ "kmz") true)
  | .CSV =>
    (download_url, filepathFrom_content_disposition cdHeader download_url
      download_dir (strDropRight filepath 3 ++ "kmz") true)
  | .T0X => (download_url, filepath)

/-- A filesystem: paths with their byte contents. -/
abbrev FS := List (String × List Nat)

/-- One event of the streamed response body: a chunk handed to
`response.iter_content`, or an exception raised mid-stream (including
cancellation). -/
inductive StreamItem
  | data (chunk : List Nat)
  | raise
deriving DecidableEq

/-- `open(path, "wb")`: create or truncate the file. -/
def fsOpenW (fs : FS) (path : String) : FS := dictSet fs path []

/-- `file.write(chunk)`. -/
def fsAppend (fs : FS) (path : String) (b : List Nat) : FS :=
  match dictGet? fs path with
  | some c => dictSet fs path (c ++ b)
  | none => dictSet fs path b

/-- `os.remove(path)`. -/
def fsRemove (fs : FS) (path : String) : FS :=
  fs.filter (fun p => p.1 != path)

/-- The write loop of download_file (TrimbleDownload.py lines 302-324): each
chunk is appended; on an exception the except clause removes the partial file
and re-raises (returned Bool).  The progress and non-progress branches have
the same filesystem effect. -/
def writeLoop (fs : FS) (path : String) : List StreamItem → FS × Bool
  | [] => (fs, false)
  | .data b :: rest => writeLoop (fsAppend fs path b) path rest
  | .raise :: _ => (fsRemove fs path, true)

/-- The streaming write of download_file after a successful GET: open the
target for writing, then run the chunk loop. -/
def download_write (fs : FS) (path : String) (items : List StreamItem) :
    FS × Bool :=
  writeLoop (fsOpenW fs path) path items

/-- The run pipeline of main (TrimbleDownload.py lines 383-455) up to URL
construction: argparse validation runs first, so an invalid --RINEX value
terminates the process before any HTTP request; on success the harvested
files with their typed download URLs are produced. -/
def runDownload (join : String → String → String)
    (pages : String → List String) (fuel : Nat) (rinexArg : Option String)
    (outputFormat : GNSSFormat) (server base : String) (recursive : Bool) :
    Except String (List String) :=
  match cliRinex rinexArg with
  | .error e => .error e
  | .ok ver =>
    .ok ((get_files_from_directory join pages fuel base recursive).map
      (fun u => buildDownloadUrl outputFormat ver (server ++ u)))

/-! ## Dictionary lemmas -/

theorem dictGet?_set_self {α : Type} (d : List (String × α)) (k : String) (v : α) :
    dictGet? (dictSet d k v) k = some v := by
  induction d with
  | nil => simp [dictSet, dictGet?]
  | cons p rest ih =>
    obtain ⟨k0, v0⟩ := p
    by_cases h0 : k0 = k
    · simp [dictSet, h0, dictGet?]
    · simp [dictSet, h0, dictGet?, ih]

theorem dictGet?_set_ne {α : Type} {d : List (String × α)} {k k' : String} {v : α}
    (h : k' ≠ k) : dictGet? (dictSet d k v) k' = dictGet? d k' := by
  induction d with
  | nil => simp [dictSet, dictGet?, Ne.symm h]
  | cons p rest ih =>
    obtain ⟨k0, v0⟩ := p
    by_cases h0 : k0 = k
    · subst h0
      simp [dictSet, dictGet?, Ne.symm h]
    · by_cases h1 : k0 = k'
      · subst h1
        simp [dictSet, h0, dictGet?, h]
      · simp [dictSet, h0, dictGet?, h1, ih]

theorem dictMem_set_ne {α : Type} {d : List (String × α)} {k k' : String} {v : α}
    (h : k' ≠ k) : dictMem (dictSet d k v) k' = dictMem d k' := by
  induction d with
  | nil => simp [dictSet, dictMem, Ne.symm h]
  | cons p rest ih =>
    obtain ⟨k0, v0⟩ := p
    by_cases h0 : k0 = k
    · subst h0
      simp [dictSet, dictMem, Ne.symm h]
    · simp [dictSet, dictMem, h0, ih]

theorem dictGet?_eq_none_of_not_mem {α : Type} {d : List (String × α)} {k : String}
    (h : dictMem d k = false) : dictGet? d k = none := by
  induction d with
  | nil => rfl
  | cons p rest ih =>
    obtain ⟨k0, v0⟩ := p
    simp [dictMem] at h
    simp [dictGet?, h.1, ih h.2]

theorem dictGet?_strip_ne {data : List (String × String)} {k suf : String} {n : Nat}
    {k' : String} (h : k' ≠ k) :
    dictGet? (stripSuffixAt data k suf n) k' = dictGet? data k' := by
  unfold stripSuffixAt
  cases hg : dictGet? data k with
  | none => rfl
  | some v =>
    cases he : strEndsWith v suf with
    | true => simp [he, dictGet?_set_ne h]
    | false => simp [he]

/-! ## parse_table structure lemmas -/

theorem processRow_not_contributing (data : List (String × String))
    (cells : List String) (h : isContributing cells = false) :
    processRow data cells = data := by
  rcases cells with _ | ⟨c0, _ | ⟨c1, _ | ⟨c2, rest⟩⟩⟩
  · rfl
  · rfl
  · have hm : ¬ (strTrim c0 ∈ allowedKeys) := by
      simpa [isContributing] using h
    simp [processRow, hm]
  · rfl

theorem foldl_processRow_filter (rows : List (List String))
    (d : List (String × String)) :
    rows.foldl processRow d = (rows.filter isContributing).foldl processRow d := by
  induction rows generalizing d with
  | nil => rfl
  | cons r rs ih =>
    cases hc : isContributing r with
    | true => simp [List.filter_cons, hc, ih]
    | false =>
      simp [List.filter_cons, hc, processRow_not_contributing _ _ hc, ih]

theorem remapKey_ne_eastSigma {key : String} (hmem : key ∈ allowedKeys)
    (hne : key ≠ "East") : remapKey key ≠ "East Sigma" := by
  by_cases h1 : key = "Track"
  · subst h1
    decide
  · by_cases h2 : key = "East"
    · exact absurd h2 hne
    · by_cases h3 : key = "North"
      · subst h3
        decide
      · simp only [remapKey, if_neg h1, if_neg h2, if_neg h3]
        intro hk
        subst hk
        exact absurd hmem (by decide)

theorem processRow_preserves_no_eastSigma (data : List (String × String))
    (cells : List String) (hd : dictMem data "East Sigma" = false)
    (hrow : isEastRow cells = false) :
    dictMem (processRow data cells) "East Sigma" = false := by
  rcases cells with _ | ⟨c0, _ | ⟨c1, _ | ⟨c2, rest⟩⟩⟩
  · exact hd
  · exact hd
  · have hne : strTrim c0 ≠ "East" := by
      simpa [isEastRow] using hrow
    by_cases hmem : strTrim c0 ∈ allowedKeys
    · have hES : ("East Sigma" : String) ≠ remapKey (strTrim c0) :=
        Ne.symm (remapKey_ne_eastSigma hmem hne)
      have hUp : ("East Sigma" : String) ≠ "Up Sigma" := by decide
      cases hm : dictMem data (remapKey (strTrim c0)) with
      | false => simp [processRow, hmem, hm, dictMem_set_ne hES, hd]
      | true => simp [processRow, hmem, hm, dictMem_set_ne hUp, hd]
    · simpa [processRow, hmem] using hd
  · exact hd

theorem foldl_no_eastSigma (rows : List (List String))
    (d : List (String × String)) (hd : dictMem d "East Sigma" = false)
    (h : ∀ cells ∈ rows, isEastRow cells = false) :
    dictMem (rows.foldl processRow d) "East Sigma" = false := by
  induction rows generalizing d with
  | nil => exact hd
  | cons r rs ih =>
    exact ih _
      (processRow_preserves_no_eastSigma d r hd (h r (by simp)))
      (fun c hc => h c (by simp [hc]))

/-! ## Download write-loop lemmas -/

theorem dictMem_fsRemove (fs : FS) (path : String) :
    dictMem (fsRemove fs path) path = false := by
  induction fs with
  | nil => rfl
  | cons p rest ih =>
    by_cases h : p.1 = path
    · simpa [fsRemove, List.filter_cons, h] using ih
    · simpa [fsRemove, List.filter_cons, h, dictMem] using ih

theorem writeLoop_raise (path : String) (items : List StreamItem)
    (h : StreamItem.raise ∈ items) (fs : FS) :
    (writeLoop fs path items).2 = true ∧
      dictMem (writeLoop fs path items).1 path = false := by
  induction items generalizing fs with
  | nil => cases h
  | cons it rest ih =>
    cases it with
    | raise => exact ⟨rfl, dictMem_fsRemove fs path⟩
    | data b =>
      have h' : StreamItem.raise ∈ rest := by
        rcases List.mem_cons.mp h with h1 | h1
        · exact StreamItem.noConfusion h1
        · exact h1
      exact ih h' (fsAppend fs path b)

/-! ## String append lemmas -/

theorem string_append_left_cancel {u a b : String} (h : u ++ a = u ++ b) :
    a = b := by
  have hd := congrArg String.data h
  rw [String.data_append, String.data_append] at hd
  cases a
  cases b
  exact congrArg String.mk (List.append_cancel_left hd)

/-! ## Claim C3 -/

/-- Claim C3: for every attribute table decoded by parse_table in which the
"Corr Age" value ends with "s" and an "East" row is present (so the "East
Sigma" key is in the accumulated table), the normalized "Corr Age" in the
returned mapping equals the not-yet-unit-stripped "East Sigma" value with its
final character removed: the suffix-strip replacement is read from the
east-sigma field, not from the correlation-age field itself. -/
theorem C3_corr_age_reads_east_sigma (rows : List (List String)) (v e : String)
    (h1 : dictGet? (buildData rows) "Corr Age" = some v)
    (h2 : strEndsWith v "s" = true)
    (h3 : dictGet? (buildData rows) "East Sigma" = some e) :
    ∃ m, parse_table rows = .ok m ∧
      dictGet? m "Corr Age" = some (strDropRight e 1) := by
  have hca1 : dictGet? (stripSuffixAt (buildData rows) "Hgt" "m" 1) "Corr Age" =
      some v := by
    rw [dictGet?_strip_ne (by decide : ("Corr Age" : String) ≠ "Hgt")]
    exact h1
  have hes1 : dictGet? (stripSuffixAt (buildData rows) "Hgt" "m" 1) "East Sigma" =
      some e := by
    rw [dictGet?_strip_ne (by decide : ("East Sigma" : String) ≠ "Hgt")]
    exact h3
  have hstep : corrAgeStep (stripSuffixAt (buildData rows) "Hgt" "m" 1) =
      .ok (dictSet (stripSuffixAt (buildData rows) "Hgt" "m" 1) "Corr Age"
        (strDropRight e 1)) := by
    simp [corrAgeStep, hca1, h2, hes1]
  refine ⟨stripSuffixAt (stripSuffixAt (stripSuffixAt (stripSuffixAt (stripSuffixAt
    (stripSuffixAt (dictSet (stripSuffixAt (buildData rows) "Hgt" "m" 1)
      "Corr Age" (strDropRight e 1)) "East Sigma" "m" 1) "North Sigma" "m" 1)
    "Up Sigma" "m" 1) "Track Angle" "°" 1) "Velocity" "km/h" 4) "Time" " secs" 5,
    ?_, ?_⟩
  · simp only [parse_table, stripPipeline, hstep]
  · rw [dictGet?_strip_ne (by decide : ("Corr Age" : String) ≠ "Time")]
    rw [dictGet?_strip_ne (by decide : ("Corr Age" : String) ≠ "Velocity")]
    rw [dictGet?_strip_ne (by decide : ("Corr Age" : String) ≠ "Track Angle")]
    rw [dictGet?_strip_ne (by decide : ("Corr Age" : String) ≠ "Up Sigma")]
    rw [dictGet?_strip_ne (by decide : ("Corr Age" : String) ≠ "North Sigma")]
    rw [dictGet?_strip_ne (by decide : ("Corr Age" : String) ≠ "East Sigma")]
    exact dictGet?_set_self _ _ _

/-- Witness for C3 on the table [East 0.01m; Corr Age 2s]: the normalized
correlation age comes out as "0.01", the raw east-sigma value minus its last
character. -/
theorem C3_witness :
    dictGet? (buildData [["East", "0.01m"], ["Corr Age", "2s"]]) "Corr Age" =
      some "2s" ∧
    strEndsWith "2s" "s" = true ∧
    dictGet? (buildData [["East", "0.01m"], ["Corr Age", "2s"]]) "East Sigma" =
      some "0.01m" ∧
    ∃ m, parse_table [["East", "0.01m"], ["Corr Age", "2s"]] = .ok m ∧
      dictGet? m "Corr Age" = some (strDropRight "0.01m" 1) :=
  ⟨by decide, by decide, by decide,
    C3_corr_age_reads_east_sigma [["East", "0.01m"], ["Corr Age", "2s"]]
      "2s" "0.01m" (by decide) (by decide) (by decide)⟩

/-! ## Claim C10 -/

/-- Claim C10: any attribute table whose "Corr Age" value ends with "s" but
which contains no "East" row makes parse_table raise an uncaught KeyError:
the correlation-age suffix-strip indexes the "East Sigma" key without first
checking that it is present. -/
theorem C10_corr_age_keyerror (rows : List (List String)) (v : String)
    (h1 : dictGet? (buildData rows) "Corr Age" = some v)
    (h2 : strEndsWith v "s" = true)
    (h3 : ∀ cells ∈ rows, isEastRow cells = false) :
    parse_table rows = .error "KeyError: East Sigma" := by
  have hmem : dictMem (buildData rows) "East Sigma" = false :=
    foldl_no_eastSigma rows [] rfl h3
  have hget : dictGet? (buildData rows) "East Sigma" = none :=
    dictGet?_eq_none_of_not_mem hmem
  have hca1 : dictGet? (stripSuffixAt (buildData rows) "Hgt" "m" 1) "Corr Age" =
      some v := by
    rw [dictGet?_strip_ne (by decide : ("Corr Age" : String) ≠ "Hgt")]
    exact h1
  have hes1 : dictGet? (stripSuffixAt (buildData rows) "Hgt" "m" 1) "East Sigma" =
      none := by
    rw [dictGet?_strip_ne (by decide : ("East Sigma" : String) ≠ "Hgt")]
    exact hget
  have hstep : corrAgeStep (stripSuffixAt (buildData rows) "Hgt" "m" 1) =
      .error "KeyError: East Sigma" := by
    simp [corrAgeStep, hca1, h2, hes1]
  simp only [parse_table, stripPipeline, hstep]

/-- Witness for C10: the one-row table [Corr Age 2s] has a correlation age
ending in "s", no East row, and parse_table fails with the KeyError. -/
theorem C10_witness :
    dictGet? (buildData [["Corr Age", "2s"]]) "Corr Age" = some "2s" ∧
    strEndsWith "2s" "s" = true ∧
    (∀ cells ∈ [["Corr Age", "2s"]], isEastRow cells = false) ∧
    parse_table [["Corr Age", "2s"]] = .error "KeyError: East Sigma" :=
  ⟨by decide, by decide, by decide,
    C10_corr_age_keyerror [["Corr Age", "2s"]] "2s"
      (by decide) (by decide) (by decide)⟩

/-! ## Claim C1 -/

/-- Claim C1 counterexample: a placemark whose attribute table carries the
height "123.456m" but no coordinate triple, decoded with vertical offset 10,
writes the string "123.456" — the unit-stripped table value with no offset
subtracted — not the numeric 123.456 - 10 = 113.456 the claim requires for
every placemark carrying a height. -/
theorem C1_counterexample :
    parse_kmz (ZipInput.zip [("doc.kml", [⟨some [["Hgt", "123.456m"]], none⟩])]) 10 =
      .ok ⟨[[("Hgt", Val.str "123.456")]], none⟩ ∧
    Val.str "123.456" ≠ Val.num (123.456 - 10) :=
  ⟨rfl, fun h => Val.noConfusion h⟩

/-- Claim C1 as amended: the vertical offset is applied only on the
coordinate path.  When a placemark carries a 3-component coordinate triple
whose third component parses as q, the row's height is the numeric q minus
the offset (overwriting any table height); a placemark whose table carries a
height but no coordinate triple keeps the unit-stripped table string with no
offset subtracted. -/
theorem C1_amended (rows' : List (List String)) (d : List (String × String))
    (pt c0 c1 c2 : String) (q arp : ℚ)
    (hd : parse_table rows' = .ok d)
    (hpt : strSplitOn (strTrim pt) "," = [c0, c1, c2])
    (hq : parseDecimal? c2 = some q) :
    processPlacemarks arp [⟨some rows', some pt⟩] =
      ([dictSet (dictSet (dictSet (vDict d) "Lat" (Val.str c0)) "Lon" (Val.str c1))
          "Hgt" (Val.num (q - arp))], none) ∧
    dictGet? (dictSet (dictSet (dictSet (vDict d) "Lat" (Val.str c0)) "Lon"
        (Val.str c1)) "Hgt" (Val.num (q - arp))) "Hgt" = some (Val.num (q - arp)) ∧
    processPlacemarks arp [⟨some rows', none⟩] = ([vDict d], none) := by
  refine ⟨?_, dictGet?_set_self _ _ _, ?_⟩
  · simp [processPlacemarks, hd, applyCoordinates, hpt, hq]
  · simp [processPlacemarks, hd, applyCoordinates]

/-- Witness for the amended C1: height table value "123.456m", coordinates
"1.0,2.0,50.5", offset 10 — the coordinate row gets Hgt = 50.5 - 10 and the
coordinate-free row keeps the string "123.456". -/
theorem C1_amended_witness :
    parse_table [["Hgt", "123.456m"]] = .ok [("Hgt", "123.456")] ∧
    strSplitOn (strTrim "1.0,2.0,50.5") "," = ["1.0", "2.0", "50.5"] ∧
    parseDecimal? "50.5" = some (101 / 2) ∧
    processPlacemarks 10 [⟨some [["Hgt", "123.456m"]], some "1.0,2.0,50.5"⟩] =
      ([dictSet (dictSet (dictSet (vDict [("Hgt", "123.456")]) "Lat" (Val.str "1.0"))
          "Lon" (Val.str "2.0")) "Hgt" (Val.num ((101 / 2 : ℚ) - 10))], none) := by
  have hq : parseDecimal? "50.5" = some (101 / 2) := by
    have h1 : parseDecimal? "50.5" =
        some ((1 : ℚ) * (((50 : ℕ) : ℚ) + ((5 : ℕ) : ℚ) / 10 ^ (1 : ℕ))) := rfl
    rw [h1]
    norm_num
  exact ⟨rfl, by decide, hq,
    (C1_amended [["Hgt", "123.456m"]] [("Hgt", "123.456")] "1.0,2.0,50.5"
      "1.0" "2.0" "50.5" (101 / 2) 10 rfl (by decide) hq).1⟩

/-! ## Claim C2 -/

/-- Claim C2: whenever the streaming write loop hits an exception mid-stream
(a raise among the stream items), download_file's except clause removes the
partially written target file and re-raises, so the target path does not
exist afterward. -/
theorem C2_partial_download_removed (fs : FS) (path : String)
    (items : List StreamItem) (h : StreamItem.raise ∈ items) :
    (download_write fs path items).2 = true ∧
      dictMem (download_write fs path items).1 path = false :=
  writeLoop_raise path items h (fsOpenW fs path)

/-- Witness for C2: a stream that yields one chunk and then raises leaves no
file at the target path and re-raises. -/
theorem C2_witness :
    StreamItem.raise ∈ [StreamItem.data [1, 2], StreamItem.raise] ∧
    (download_write [("old", [9])] "Downloads/a.T02"
        [StreamItem.data [1, 2], StreamItem.raise]).2 = true ∧
    dictMem (download_write [("old", [9])] "Downloads/a.T02"
        [StreamItem.data [1, 2], StreamItem.raise]).1 "Downloads/a.T02" = false :=
  ⟨by decide,
    (C2_partial_download_removed [("old", [9])] "Downloads/a.T02"
      [StreamItem.data [1, 2], StreamItem.raise] (by decide)).1,
    (C2_partial_download_removed [("old", [9])] "Downloads/a.T02"
      [StreamItem.data [1, 2], StreamItem.raise] (by decide)).2⟩

/-! ## Claim C4 -/

/-- Claim C4 counterexample: a table that does contain the two rows
(Hgt, 45.2m) then (Hgt, 0.015m) but also two "East" rows ends with
"Up Sigma" = "0.02" — the second duplicate label overwrites the "Up Sigma"
slot — so the claimed mapping does not hold for every table containing those
two height rows. -/
theorem C4_counterexample :
    parse_table [["Hgt", "45.2m"], ["Hgt", "0.015m"],
        ["East", "0.01m"], ["East", "0.02m"]] =
      .ok [("Hgt", "45.2"), ("Up Sigma", "0.02"), ("East Sigma", "0.01")] ∧
    dictGet? [("Hgt", "45.2"), ("Up Sigma", "0.02"), ("East Sigma", "0.01")]
      "Up Sigma" = some "0.02" ∧
    ("0.02" : String) ≠ "0.015" :=
  ⟨rfl, by decide, by decide⟩

/-- Claim C4 as amended: for every attribute table whose two-cell rows with
allow-listed labels are exactly (Hgt, 45.2m) then (Hgt, 0.015m) — other rows
may be present but must not carry allow-listed labels — parse_table returns
Hgt = "45.2" and Up Sigma = "0.015": the second height occurrence lands under
the distinct "Up Sigma" key and both values lose their "m" suffix. -/
theorem C4_amended (rows : List (List String))
    (h : rows.filter isContributing = [["Hgt", "45.2m"], ["Hgt", "0.015m"]]) :
    parse_table rows = .ok [("Hgt", "45.2"), ("Up Sigma", "0.015")] ∧
    dictGet? [("Hgt", "45.2"), ("Up Sigma", "0.015")] "Hgt" = some "45.2" ∧
    dictGet? [("Hgt", "45.2"), ("Up Sigma", "0.015")] "Up Sigma" = some "0.015" := by
  have hb : buildData rows = [("Hgt", "45.2m"), ("Up Sigma", "0.015m")] := by
    unfold buildData
    rw [foldl_processRow_filter, h]
    rfl
  refine ⟨?_, by decide, by decide⟩
  unfold parse_table
  rw [hb]
  rfl

/-- Witness for the amended C4 on the exact two-row table. -/
theorem C4_amended_witness :
    [["Hgt", "45.2m"], ["Hgt", "0.015m"]].filter isContributing =
      [["Hgt", "45.2m"], ["Hgt", "0.015m"]] ∧
    parse_table [["Hgt", "45.2m"], ["Hgt", "0.015m"]] =
      .ok [("Hgt", "45.2"), ("Up Sigma", "0.015")] :=
  ⟨by decide,
    (C4_amended [["Hgt", "45.2m"], ["Hgt", "0.015m"]] (by decide)).1⟩

/-! ## Claim C5 -/

/-- Claim C5: on a directory listing page whose hyperlinks are exactly
["a.T02", "a.T02?format=x", "sub/", "../"] with recursion disabled,
get_files_from_directory returns exactly the singleton of "a.T02" resolved
(via urljoin) against the directory URL: the tracked-extension link is
accepted, the query-string variant is skipped, and the remaining links
(parent/self or sub-directory) contribute nothing. -/
theorem C5_harvest_filters (join : String → String → String)
    (pages : String → List String) (directory_url : String) (fuel : Nat)
    (h : pages directory_url = ["a.T02", "a.T02?format=x", "sub/", "../"]) :
    get_files_from_directory join pages (fuel + 1) directory_url false =
      [join directory_url "a.T02"] := by
  rw [get_files_from_directory, h]
  show [join directory_url "a.T02"] ++
      ([] ++ ((if ("sub/" : String).length ≤ directory_url.length then []
          else []) ++
        ((if ("../" : String).length ≤ directory_url.length then []
          else []) ++ []))) =
      [join directory_url "a.T02"]
  simp

/-- Witness for C5 with the urljoin stand-in `fun _ b => b` and the directory
"/download/Internal". -/
theorem C5_witness :
    (fun _ : String => ["a.T02", "a.T02?format=x", "sub/", "../"])
        "/download/Internal" = ["a.T02", "a.T02?format=x", "sub/", "../"] ∧
    get_files_from_directory (fun _ b => b)
        (fun _ => ["a.T02", "a.T02?format=x", "sub/", "../"]) 1
        "/download/Internal" false = ["a.T02"] :=
  ⟨rfl,
    C5_harvest_filters (fun _ b => b)
      (fun _ => ["a.T02", "a.T02?format=x", "sub/", "../"])
      "/download/Internal" 0 rfl⟩

/-! ## Claim C6 -/

/-- Claim C6 counterexample: a KMP download with a caller who wants renaming
(NoRename = false) against a server whose probe response carries
Content-Disposition filename "server.kmz" resolves to the locally computed
default "Downloads/a.kmz", not to the server-suggested "Downloads/server.kmz":
the archive branches force NoRename = true, which skips the probe, the
opposite of forcing server-suggested naming. -/
theorem C6_counterexample :
    (download_file_resolve (fun _ => some "attachment; filename=server.kmz")
        "http://r" "/download/a.T02" "Downloads" .KMP "3.04" false).2 =
      "Downloads/a.kmz" ∧
    "Downloads" ++ "/" ++ cdFilename "attachment; filename=server.kmz" =
      "Downloads/server.kmz" ∧
    ("Downloads/a.kmz" : String) ≠ "Downloads/server.kmz" :=
  ⟨rfl, rfl, by decide⟩

/-- Claim C6 as amended: for the archive formats (KML, KMP, and CSV which
reuses the KMP path) the local filename is always the computed default — the
URL tail with its last three characters replaced by the format suffix —
regardless of the caller's rename policy and of any server-suggested name:
the probe for a Content-Disposition name is skipped entirely. -/
theorem C6_amended (cdHeader : String → Option String)
    (server url download_dir RINEX : String) (NoRename : Bool)
    (fmt : GNSSFormat) (h : fmt ∈ [GNSSFormat.KML, GNSSFormat.KMP, GNSSFormat.CSV]) :
    (download_file_resolve cdHeader server url download_dir fmt RINEX NoRename).2 =
      strDropRight (download_dir ++ "/" ++ (strSplitOn url "/").getLastD "") 3 ++
        (if fmt = GNSSFormat.KML then "lines.kmz" else "kmz") := by
  fin_cases h <;> rfl

/-- Witness for the amended C6: a CSV download ignores both the caller's
NoRename = false and the probe's suggested name. -/
theorem C6_amended_witness :
    GNSSFormat.CSV ∈ [GNSSFormat.KML, GNSSFormat.KMP, GNSSFormat.CSV] ∧
    (download_file_resolve (fun _ => some "attachment; filename=server.kmz")
        "http://r" "/download/b.T04" "Downloads" .CSV "3.04" false).2 =
      strDropRight ("Downloads" ++ "/" ++ (strSplitOn "/download/b.T04" "/").getLastD "") 3 ++
        (if GNSSFormat.CSV = GNSSFormat.KML then "lines.kmz" else "kmz") :=
  ⟨by decide,
    C6_amended (fun _ => some "attachment; filename=server.kmz")
      "http://r" "/download/b.T04" "Downloads" "3.04" false .CSV (by decide)⟩

/-! ## Claim C7 -/

/-- Claim C7 counterexample: a request with a missing RINEX version does not
fail — argparse substitutes the default "3.04" and the run proceeds — so
"missing version ⟹ ConfigurationError" is false. -/
theorem C7_counterexample :
    cliRinex none = .ok "3.04" ∧
    runDownload (fun _ b => b) (fun _ => []) 1 none .RINEX "http://r"
      "/download/Internal" false = .ok [] :=
  ⟨rfl, rfl⟩

/-- Claim C7 as amended: an explicitly supplied RINEX version outside
{2.11, 2.12, 3.00, 3.02, 3.03, 3.04} makes argparse reject the command line,
terminating before any HTTP request is issued (the run produces an error and
no request list); a missing version never fails, defaulting to 3.04. -/
theorem C7_amended (join : String → String → String)
    (pages : String → List String) (fuel : Nat) (v : String)
    (fmt : GNSSFormat) (server base : String) (recursive : Bool)
    (h : v ∉ allowed_versions) :
    runDownload join pages fuel (some v) fmt server base recursive =
      .error ("invalid choice for --RINEX: " ++ v) := by
  simp [runDownload, cliRinex, h]

/-- Witness for the amended C7 at the unsupported version "9.99". -/
theorem C7_amended_witness :
    "9.99" ∉ allowed_versions ∧
    runDownload (fun _ b => b) (fun _ => ["a.T02"]) 1 (some "9.99") .RINEXZ
        "http://r" "/download/Internal" true =
      .error ("invalid choice for --RINEX: " ++ "9.99") :=
  ⟨by decide,
    C7_amended (fun _ b => b) (fun _ => ["a.T02"]) 1 "9.99" .RINEXZ
      "http://r" "/download/Internal" true (by decide)⟩

/-! ## Claim C8 -/

/-- Claim C8: for a RINEXZ download the query string appended to the URL is
?format=Zipped-RNX-MIX&Ver=v exactly when the supported version v is 3.03 or
3.04, and ?format=Zipped-RNX&Ver=v for every other supported version. -/
theorem C8_rinexz_query (RINEX url : String) (h : RINEX ∈ allowed_versions) :
    buildDownloadUrl .RINEXZ RINEX url =
      url ++ (if RINEX = "3.03" ∨ RINEX = "3.04" then "?format=Zipped-RNX-MIX&Ver="
        else "?format=Zipped-RNX&Ver=") ++ RINEX ∧
    (buildDownloadUrl .RINEXZ RINEX url =
        url ++ "?format=Zipped-RNX-MIX&Ver=" ++ RINEX ↔
      RINEX = "3.03" ∨ RINEX = "3.04") := by
  have hplain : ∀ w : String, w ∈ (["2.11", "2.12", "3.00", "3.02"] : List String) →
      ¬ (url ++ "?format=Zipped-RNX&Ver=" ++ w =
        url ++ "?format=Zipped-RNX-MIX&Ver=" ++ w) := by
    intro w _ he
    rw [String.append_assoc, String.append_assoc] at he
    have h2 := string_append_left_cancel he
    have h3 := congrArg String.data h2
    rw [String.data_append, String.data_append] at h3
    simp at h3
  fin_cases h
  · exact ⟨rfl, ⟨fun he => absurd he (hplain "2.11" (by decide)), fun hv => by
      rcases hv with hv | hv <;> exact absurd hv (by decide)⟩⟩
  · exact ⟨rfl, ⟨fun he => absurd he (hplain "2.12" (by decide)), fun hv => by
      rcases hv with hv | hv <;> exact absurd hv (by decide)⟩⟩
  · exact ⟨rfl, ⟨fun he => absurd he (hplain "3.00" (by decide)), fun hv => by
      rcases hv with hv | hv <;> exact absurd hv (by decide)⟩⟩
  · exact ⟨rfl, ⟨fun he => absurd he (hplain "3.02" (by decide)), fun hv => by
      rcases hv with hv | hv <;> exact absurd hv (by decide)⟩⟩
  · exact ⟨rfl, ⟨fun _ => Or.inl rfl, fun _ => rfl⟩⟩
  · exact ⟨rfl, ⟨fun _ => Or.inr rfl, fun _ => rfl⟩⟩

/-- Witness for C8 at versions 3.03 (mixed variant) applied to a concrete
URL. -/
theorem C8_witness :
    "3.03" ∈ allowed_versions ∧
    buildDownloadUrl .RINEXZ "3.03" "http://r/download/a.T02" =
      "http://r/download/a.T02" ++
        (if ("3.03" : String) = "3.03" ∨ ("3.03" : String) = "3.04" then
          "?format=Zipped-RNX-MIX&Ver=" else "?format=Zipped-RNX&Ver=") ++ "3.03" :=
  ⟨by decide, (C8_rinexz_query "3.03" "http://r/download/a.T02" (by decide)).1⟩

/-! ## Claim C9 -/

/-- Claim C9 counterexample: on an invalid zip container, and on a valid zip
with no ".kml" entry, parse_kmz returns normally (the exception channel
carries .ok): the except clauses catch BadZipFile and the missing-KML
Exception and only print a diagnostic, so no error result reaches the
caller. -/
theorem C9_counterexample :
    parse_kmz ZipInput.badZip 0 =
      .ok ⟨[], some "The file is not a valid KMZ."⟩ ∧
    parse_kmz (ZipInput.zip [("doc.txt", [])]) 0 =
      .ok ⟨[], some ("Error: " ++ "No KML file found in the KMZ.")⟩ :=
  ⟨rfl, rfl⟩

/-- Claim C9 as amended: for a non-zip input, and for any zip whose entries
include no ".kml" name, parse_kmz catches the raised exception, prints the
corresponding diagnostic, and returns normally with no rows; the failure is
reported on the output stream but is not observable by the caller as an
error result. -/
theorem C9_amended (arp : ℚ) (entries : List (String × List Placemark))
    (h : ∀ e ∈ entries, strEndsWith e.1 ".kml" = false) :
    parse_kmz ZipInput.badZip arp =
      .ok ⟨[], some "The file is not a valid KMZ."⟩ ∧
    parse_kmz (ZipInput.zip entries) arp =
      .ok ⟨[], some ("Error: " ++ "No KML file found in the KMZ.")⟩ := by
  refine ⟨rfl, ?_⟩
  have hf : entries.find? (fun e => strEndsWith e.1 ".kml") = none := by
    rw [List.find?_eq_none]
    intro e he
    simp [h e he]
  simp [parse_kmz, parse_kmz_body, hf]

/-- Witness for the amended C9 on a zip holding only "doc.txt". -/
theorem C9_amended_witness :
    (∀ e ∈ [("doc.txt", ([] : List Placemark))], strEndsWith e.1 ".kml" = false) ∧
    parse_kmz (ZipInput.zip [("doc.txt", [])]) 5 =
      .ok ⟨[], some ("Error: " ++ "No KML file found in the KMZ.")⟩ :=
  ⟨by decide, (C9_amended 5 [("doc.txt", [])] (by decide)).2⟩

end GNSSDownload
